import Mathlib

set_option linter.unusedVariables false

/-!
Verification of Flask-SuperAdmin model-admin backends.

This file gives a shallow embedding of the two backend source files

  * flask_superadmin/model/backends/mongoengine/view.py  (ModelAdmin)
  * flask_superadmin/model/backends/django/orm.py        (field conversion,
    model_fields, model_form)

and proves or refutes the specification claims about them.

Conventions of the embedding:
  * Python lists become Lean lists; a Python dict whose insertion order
    matters (field mappings) becomes an association list in insertion order.
  * Python truthiness of an optional list or string is modelled explicitly.
  * Code that can raise returns Except.
-/

namespace Mongo

/-!
## Embedding of mongoengine/view.py

A document row is a record of named integer columns; the mongoengine
QuerySet is modelled as the ordered list of matching documents, with
count / order_by / skip / limit / all as list operations mirroring the
driver semantics the code relies on.
-/

/-- A document as seen by the list view: named columns with values. -/
abbrev Row := List (String × Nat)

/-- Column access used by ordering. Missing columns read as 0. -/
def getCol (r : Row) (c : String) : Nat :=
  (((r.find? (fun p => p.1 = c)).map Prod.snd).getD 0)

/-- The mongoengine query set: the matching documents in current order. -/
structure QuerySet where
  docs : List Row
deriving DecidableEq, Repr

/-- query.count(): number of matching documents (called before skip/limit). -/
def QuerySet.count (q : QuerySet) : Nat := q.docs.length

/-- query.skip(n). -/
def QuerySet.skip (q : QuerySet) (n : Nat) : QuerySet := ⟨q.docs.drop n⟩

/-- query.limit(n). -/
def QuerySet.limit (q : QuerySet) (n : Nat) : QuerySet := ⟨q.docs.take n⟩

/-- query.all(): materializes the query; the document sequence is unchanged. -/
def QuerySet.all (q : QuerySet) : QuerySet := ⟨q.docs⟩

/-- Stable insertion into a list sorted by `le`. -/
def insertBy (le : Row → Row → Bool) (r : Row) : List Row → List Row
  | [] => [r]
  | x :: xs => if le x r then x :: insertBy le r xs else r :: x :: xs

/-- Stable insertion sort by `le`. -/
def sortBy (le : Row → Row → Bool) : List Row → List Row
  | [] => []
  | x :: xs => insertBy le x (sortBy le xs)

/-- query.order_by(spec): ascending by the named column, descending when the
spec carries a leading minus sign. -/
def QuerySet.order_by (q : QuerySet) (spec : String) : QuerySet :=
  if spec.startsWith "-" then
    ⟨sortBy (fun a b => getCol b (spec.drop 1) ≤ getCol a (spec.drop 1)) q.docs⟩
  else
    ⟨sortBy (fun a b => getCol a spec ≤ getCol b spec) q.docs⟩

/-- Python truthiness of an optional string (None and the empty string are
falsy). -/
def strTruthy : Option String → Bool
  | some s => !s.isEmpty
  | none => false

/-- The configuration of a ModelAdmin instance that get_list reads:
self.model.objects, self.list_display, self.sort, self.page,
self.list_per_page. -/
structure AdminState where
  objects : QuerySet
  list_display : List String
  sort_column : Option String
  sort_desc : Bool
  page : Option Nat
  list_per_page : Nat
deriving DecidableEq, Repr

/-- ModelAdmin.get_list(execute): counts the matching documents, applies the
configured order, skips page*list_per_page when a page is set, then applies
limit(list_per_page) unconditionally; execute materializes the query.
The only(*cols) projection in the source is commented out and therefore
not applied. -/
def get_list (s : AdminState) (execute : Bool) : Nat × QuerySet :=
  let query := s.objects
  let count := query.count
  let query :=
    if strTruthy s.sort_column then
      query.order_by ((if s.sort_desc then "-" else "") ++ (s.sort_column.getD ""))
    else query
  let query :=
    match s.page with
    | some page => query.skip (page * s.list_per_page)
    | none => query
  let query := query.limit s.list_per_page
  let query := if execute then query.all else query
  (count, query)

/-- A stored document for the delete path: its ObjectId and its payload. -/
structure MDoc where
  id : Nat
  data : Int
deriving DecidableEq, Repr

/-- ModelAdmin.get_objects(*pks): Model.objects.in_bulk(pks).values() — the
stored documents whose id is among the requested pks, in store order;
missing pks are silently absent from the result. -/
def get_objects (store : List MDoc) (pks : List Nat) : List MDoc :=
  store.filter (fun d => pks.contains d.id)

/-- obj.delete(): removes the document (by its id) from the collection. -/
def deleteDoc (store : List MDoc) (o : MDoc) : List MDoc :=
  store.filter (fun x => !(x.id == o.id))

/-- ModelAdmin.delete_models(*pks): deletes each object found by
get_objects and returns True. Result is (returned value, final store). -/
def delete_models (store : List MDoc) (pks : List Nat) : Bool × List MDoc :=
  (true, (get_objects store pks).foldl deleteDoc store)

/-- A Python runtime value offered to model_detect: either a class (with the
names of all classes in its method-resolution order) or a non-class value. -/
inductive PyCandidate where
  | cls (name : String) (mro : List String)
  | nonClass (descr : String)
deriving DecidableEq, Repr

/-- issubclass(v, target): membership of target in the candidate's class
hierarchy; raises TypeError when the first argument is not a class. -/
def issubclass (v : PyCandidate) (target : String) : Except String Bool :=
  match v with
  | .cls _ mro => .ok (mro.contains target)
  | .nonClass _ => .error "TypeError: issubclass() arg 1 must be a class"

/-- ModelAdmin.model_detect(model): issubclass(model, mongoengine.Document). -/
def model_detect (v : PyCandidate) : Except String Bool :=
  issubclass v "mongoengine.Document"

/-- ModelAdmin.allow_pk(): the mongoengine adapter never opts into
primary-key entry on create. -/
def allow_pk : Bool := false

/-- ModelAdmin.get_form(adding): computes adding and allow_pk() but discards
the result, then delegates to the backend model_form with the configured
include list, exclude list, field args and a fresh converter. The
mongoengine model_form module itself is not among the sources, so get_form
is embedded against an arbitrary model_form argument; what the source shows
is that the computed allow-pk flag cannot reach it. -/
def get_form {FormTy : Type} (mform : Option (List String) → Option (List String) → FormTy)
    (only exclude : Option (List String)) (adding : Bool) : FormTy :=
  let _allow_pk := adding && allow_pk
  mform only exclude

end Mongo

namespace Orm

/-!
## Embedding of django/orm.py

Field conversion (ModelConverterBase.convert with the AdminModelConverter
handler set), model_fields and model_form, translated clause by clause
from the source.
-/

/-- A Python value crossing the conversion and coercion boundaries. -/
inductive PyVal where
  | pyStr (s : String)
  | pyBool (b : Bool)
  | pyInt (n : Int)
  | pyNone
deriving DecidableEq, Repr

/-- One decimal digit of the int() parser. -/
def digitVal? (c : Char) : Option Nat :=
  if c.isDigit then some (c.toNat - 48) else none

/-- Accumulating decimal parser: all characters must be digits. -/
def decNatCore : List Char → Nat → Option Nat
  | [], acc => some acc
  | c :: cs, acc =>
      match digitVal? c with
      | some d => decNatCore cs (acc * 10 + d)
      | none => none

/-- int(s) on a string: an optional minus sign followed by decimal digits;
any other shape raises ValueError (none here). -/
def strToInt? (s : String) : Option Int :=
  match s.data with
  | [] => none
  | '-' :: cs =>
      match cs with
      | [] => none
      | _ => (decNatCore cs 0).map (fun n => -(n : Int))
  | cs => (decNatCore cs 0).map (fun n => (n : Int))

/-- int(value) on the values above: parses a decimal string, casts a bool,
passes an int through; None and an unparsable string raise (none here). -/
def pyToInt : PyVal → Option Int
  | .pyStr s => strToInt? s
  | .pyBool b => some (if b then 1 else 0)
  | .pyInt n => some n
  | .pyNone => none

/-- The wtforms validators the conversion code constructs. -/
inductive Validator where
  | optional
  | lengthMax (max : Int)
  | email
  | ipAddress
  | url
deriving DecidableEq, Repr

/-- The wtforms field classes the conversion code constructs. -/
inductive FieldKind where
  | selectField
  | integerField
  | decimalField
  | fileField
  | booleanField
  | stringField
  | textAreaField
  | dateTimeField
  | dateField
  | modelSelectField
deriving DecidableEq, Repr

/-- The value filters the conversion code closes over: extract the time
component (or the date component) when the bound value has one, else pass
it through unchanged. -/
inductive ValueFilter where
  | timeOnly
  | dateOnly
deriving DecidableEq, Repr

/-- The widget hints the conversion code passes. -/
inductive Widget where
  | chosenSelect
  | dateTimePicker
  | datePicker
  | plain
deriving DecidableEq, Repr

/-- The coerce argument: only conv_NullBooleanField passes one. -/
inductive CoerceFn where
  | defaultCoerce
  | nullbool
deriving DecidableEq, Repr

/-- The constructed form-field descriptor: the field class plus every
keyword argument the conversion code can pass to it. -/
structure FormFieldDescriptor where
  kind : FieldKind
  label : String
  description : String
  validators : List Validator
  filters : List ValueFilter
  default : PyVal
  choices : List (PyVal × String)
  widget : Widget
  coerce : CoerceFn
  format : Option String
  refModel : Option String
deriving DecidableEq, Repr

/-- A native Django field as the conversion code reads it: name, type name
(type(field).__name__), verbose_name, help_text, blank, max_length,
default, choices, and the related model for relation fields (field.rel.to). -/
structure DjangoField where
  name : String
  ftype : String
  verbose_name : String
  help_text : String
  blank : Bool
  max_length : Option Int
  default : PyVal
  choices : List (PyVal × String)
  rel_to : Option String
deriving DecidableEq, Repr

/-- A native Django model as the code reads it: the type name
(model._meta.object_name), the declared fields in declaration order
(model._meta.fields), and the declared primary-key field name (read by no
code here, but needed to state the primary-key claims). -/
structure DjangoModel where
  object_name : String
  fields : List DjangoField
  pk_name : String
deriving DecidableEq, Repr

/-- A per-field override map entry (field_args[name]): the kwargs keys the
conversion code writes, each optionally overridden by the caller via
kwargs.update(field_args). -/
structure FieldArgs where
  label : Option String
  description : Option String
  validators : Option (List Validator)
  filters : Option (List ValueFilter)
  default : Option PyVal
deriving DecidableEq, Repr

/-- The kwargs dict as convert builds it before dispatch. -/
structure Kwargs where
  label : String
  description : String
  validators : List Validator
  filters : List ValueFilter
  default : PyVal
deriving DecidableEq, Repr

/-- ModelConverterBase.convert, first phase: the base kwargs, the
field_args update, the optional validator when the field is blank, the
length validator when a positive max_length is declared. -/
def buildKwargs (fld : DjangoField) (fa : Option FieldArgs) : Kwargs :=
  let kw : Kwargs :=
    { label := fld.verbose_name, description := fld.help_text,
      validators := [], filters := [], default := fld.default }
  let kw :=
    match fa with
    | none => kw
    | some a =>
        { label := a.label.getD kw.label,
          description := a.description.getD kw.description,
          validators := a.validators.getD kw.validators,
          filters := a.filters.getD kw.filters,
          default := a.default.getD kw.default }
  let kw :=
    if fld.blank then
      { kw with validators := kw.validators ++ [Validator.optional] }
    else kw
  match fld.max_length with
  | some m =>
      if m > 0 then { kw with validators := kw.validators ++ [Validator.lengthMax m] }
      else kw
  | none => kw

/-- AdminModelConverter.DEFAULT_SIMPLE_CONVERSIONS. -/
def DEFAULT_SIMPLE_CONVERSIONS : List (FieldKind × List String) :=
  [ (.integerField, ["AutoField", "IntegerField", "SmallIntegerField",
                     "PositiveIntegerField", "PositiveSmallIntegerField"]),
    (.decimalField, ["DecimalField", "FloatField"]),
    (.fileField, ["FileField", "FilePathField", "ImageField"]),
    (.booleanField, ["BooleanField"]),
    (.stringField, ["CharField", "PhoneNumberField", "SlugField"]),
    (.textAreaField, ["StringField", "XMLField"]) ]

/-- The converters dict AdminModelConverter.__init__ builds from the table
above: native field type name to the simple field class constructed. -/
def simpleConverter (ftype : String) : Option FieldKind :=
  (DEFAULT_SIMPLE_CONVERSIONS.find? (fun p => p.2.contains ftype)).map Prod.fst

/-- make_simple_converter: field_type(**kwargs), no extra arguments. -/
def simpleDescriptor (k : FieldKind) (kw : Kwargs) : FormFieldDescriptor :=
  { kind := k, label := kw.label, description := kw.description,
    validators := kw.validators, filters := kw.filters, default := kw.default,
    choices := [], widget := .plain, coerce := .defaultCoerce,
    format := none, refModel := none }

/-- The localflavor region list, modelled as the ImportError fallback:
that import is environment-dependent and the code degrades it to an
empty choice set. -/
def STATE_CHOICES : List (PyVal × String) := []

/-- The conv_FieldType handlers of AdminModelConverter, dispatched on the
native field type name exactly as getattr does; an unknown name yields no
descriptor (convert returns None). -/
def convHandler (fld : DjangoField) (kw : Kwargs) : Option FormFieldDescriptor :=
  if fld.ftype = "ForeignKey" then
    some { simpleDescriptor .modelSelectField kw with
             widget := .chosenSelect, refModel := fld.rel_to }
  else if fld.ftype = "TimeField" ∨ fld.ftype = "DateTimeField" then
    some { simpleDescriptor .dateTimeField
             { kw with filters := kw.filters ++ [.timeOnly] } with
             widget := .dateTimePicker, format := some "%H:%M:%S" }
  else if fld.ftype = "DateField" then
    some { simpleDescriptor .dateField
             { kw with filters := kw.filters ++ [.dateOnly] } with
             widget := .datePicker }
  else if fld.ftype = "EmailField" then
    some (simpleDescriptor .stringField
      { kw with validators := kw.validators ++ [.email] })
  else if fld.ftype = "IPAddressField" then
    some (simpleDescriptor .stringField
      { kw with validators := kw.validators ++ [.ipAddress] })
  else if fld.ftype = "URLField" then
    some (simpleDescriptor .stringField
      { kw with validators := kw.validators ++ [.url] })
  else if fld.ftype = "USStateField" then
    some { simpleDescriptor .selectField kw with choices := STATE_CHOICES }
  else if fld.ftype = "NullBooleanField" then
    some { simpleDescriptor .selectField kw with
             choices := [(.pyNone, "Unknown"), (.pyBool true, "Yes"),
                         (.pyBool false, "No")],
             coerce := .nullbool }
  else none

/-- ModelConverterBase.convert with the AdminModelConverter handler set:
after the kwargs phase, a truthy choices attribute unconditionally yields
a SelectField with the chosen-select widget; otherwise the simple
conversion table is consulted; otherwise the conv handlers. The model
argument is carried as in the source signature (no handler reads it). -/
def adminConvert (model : DjangoModel) (fld : DjangoField)
    (fa : Option FieldArgs) : Option FormFieldDescriptor :=
  let kw := buildKwargs fld fa
  if fld.choices ≠ [] then
    some { simpleDescriptor .selectField kw with
             choices := fld.choices, widget := .chosenSelect }
  else
    match simpleConverter fld.ftype with
    | some k => some (simpleDescriptor k kw)
    | none => convHandler fld kw

/-- The coerce function conv_NullBooleanField closes over: a dict maps the
sentinels "None", None, "True" and "False"; every other value goes through
bool(int(value)), and an int failure raises ValueError. -/
def coerce_nullbool (v : PyVal) : Except String (Option Bool) :=
  if v = .pyStr "None" ∨ v = .pyNone then .ok none
  else if v = .pyStr "True" then .ok (some true)
  else if v = .pyStr "False" then .ok (some false)
  else
    match pyToInt v with
    | some n => .ok (some (decide (n ≠ 0)))
    | none => .error "ValueError"

/-- Python truthiness of an optional name list (None and the empty list
are falsy). -/
def listTruthy : Option (List String) → Bool
  | some l => !l.isEmpty
  | none => false

/-- A converter as passed to model_fields: the convert method of a
converter instance. In the source the defaulting branch references an
undefined name (ModelConverter), so the embedding takes the converter
explicitly; the callers shown in the sources pass AdminModelConverter. -/
abbrev Converter :=
  DjangoModel → DjangoField → Option FieldArgs → Option FormFieldDescriptor

/-- model_fields(model, fields, readonly_fields, exclude, field_args,
converter): enumerates the declared fields in order; a truthy fields list
keeps only the named fields, else a truthy exclude list drops the named
fields; each retained field is converted and a None result is dropped
silently. The result is the field_dict in insertion order.
readonly_fields is accepted and unused, as in the source. -/
def model_fields (model : DjangoModel) (fieldsArg : Option (List String))
    (readonly_fields : Option (List String)) (excludeArg : Option (List String))
    (field_args : String → Option FieldArgs) (converter : Converter) :
    List (String × FormFieldDescriptor) :=
  let mfs := model.fields
  let mfs :=
    if listTruthy fieldsArg then
      mfs.filter (fun f => (fieldsArg.getD []).contains f.name)
    else if listTruthy excludeArg then
      mfs.filter (fun f => !((excludeArg.getD []).contains f.name))
    else mfs
  mfs.filterMap (fun f =>
    (converter model f (field_args f.name)).map (fun d => (f.name, d)))

/-- The runtime-constructed form type: its derived name and its attribute
mapping (the base class carries no fields of its own here). -/
structure FormType where
  name : String
  field_dict : List (String × FormFieldDescriptor)
deriving DecidableEq, Repr

/-- model_form(model, base_class, fields, readonly_fields, exclude,
field_args, converter): appends the literal name id to the caller
exclusions, builds the field mapping, and names the type after the model. -/
def model_form (model : DjangoModel) (fieldsArg : Option (List String))
    (readonly_fields : Option (List String)) (excludeArg : Option (List String))
    (field_args : String → Option FieldArgs) (converter : Converter) : FormType :=
  let exclude := (excludeArg.getD []) ++ ["id"]
  { name := model.object_name ++ "Form",
    field_dict := model_fields model fieldsArg readonly_fields (some exclude)
      field_args converter }

/-- The attribute names of a field mapping, in insertion order. -/
def fieldNames (l : List (String × FormFieldDescriptor)) : List String :=
  l.map Prod.fst

/-- The caller supplied no validators override for this field. -/
def noValidatorOverride : Option FieldArgs → Prop
  | none => True
  | some a => a.validators = none

/-- Fixture: an auto-increment field named key, the declared primary key
of the fixture model below. -/
def keyField : DjangoField :=
  { name := "key", ftype := "AutoField", verbose_name := "key",
    help_text := "", blank := false, max_length := none, default := .pyNone,
    choices := [], rel_to := none }

/-- Fixture: an ordinary integer field that happens to be named id without
being the primary key. -/
def idField : DjangoField :=
  { name := "id", ftype := "IntegerField", verbose_name := "id",
    help_text := "", blank := false, max_length := none, default := .pyNone,
    choices := [], rel_to := none }

/-- Fixture: a nullable char field with a maximum length. -/
def nameField : DjangoField :=
  { name := "name", ftype := "CharField", verbose_name := "name",
    help_text := "", blank := true, max_length := some 80, default := .pyNone,
    choices := [], rel_to := none }

/-- Fixture: a model whose primary key is declared under the name key and
which also carries a non-key field named id. -/
def fixtureModel : DjangoModel :=
  { object_name := "Thing", fields := [keyField, idField, nameField],
    pk_name := "key" }

/-- Fixture: an auto-increment primary-key field under the conventional
name id. -/
def autoIdField : DjangoField :=
  { name := "id", ftype := "AutoField", verbose_name := "id",
    help_text := "", blank := false, max_length := none, default := .pyNone,
    choices := [], rel_to := none }

/-- Fixture: a model with the conventional id primary key. -/
def idPkModel : DjangoModel :=
  { object_name := "Node", fields := [autoIdField, nameField],
    pk_name := "id" }

end Orm

namespace Mongo

/-- Folding document deletion over a list of objects removes exactly the
documents whose id occurs among the deleted objects. -/
theorem foldl_deleteDoc (objs store : List MDoc) :
    objs.foldl deleteDoc store
      = store.filter (fun x => !(objs.any (fun o => x.id == o.id))) := by
  induction objs generalizing store with
  | nil => simp
  | cons o os ih =>
      simp only [List.foldl_cons, ih, deleteDoc, List.filter_filter]
      apply List.filter_congr
      intro x _
      simp [Bool.not_or, Bool.and_comm]

/-- Among the documents of the store, having an id hit in the bulk-fetched
objects is the same as having an id among the requested pks. -/
theorem any_get_objects (store : List MDoc) (pks : List Nat) (x : MDoc)
    (hx : x ∈ store) :
    (get_objects store pks).any (fun o => x.id == o.id) = pks.contains x.id := by
  cases h : pks.contains x.id with
  | true =>
      rw [List.any_eq_true]
      exact ⟨x, by simp only [get_objects, List.mem_filter]; exact ⟨hx, h⟩, by simp⟩
  | false =>
      rw [List.any_eq_false]
      intro o ho
      simp only [get_objects, List.mem_filter] at ho
      simp only [beq_iff_eq]
      intro hxo
      rw [hxo] at h
      rw [ho.2] at h
      exact Bool.noConfusion h

/-- C3: for every adapter configuration and either execute mode, the count
returned by get_list is the size of the whole matching set, untouched by
ordering and pagination; and in the concrete scenario of 25 rows, page
size 10 and page index 2, the returned slice is rows 20 to 24 while the
count is 25. -/
theorem get_list_count_spec :
    (∀ (s : AdminState) (e : Bool), (get_list s e).1 = s.objects.docs.length)
    ∧ (∀ (e : Bool),
        get_list
          { objects := ⟨(List.range 25).map (fun k => [("i", k)])⟩,
            list_display := [], sort_column := none, sort_desc := false,
            page := some 2, list_per_page := 10 } e
        = (25, ⟨((List.range 25).map (fun k => [("i", k)])).drop 20⟩)) := by
  constructor
  · intro s e
    rfl
  · intro e
    cases e <;> rfl

/-- C2 (amended): when a page index is set, get_list skips
page times list_per_page rows and limits to list_per_page; when the page
index is None no skip is applied, but the limit of list_per_page rows is
still applied unconditionally, so the full matching set is returned only
when it fits in one page. -/
theorem get_list_pagination (s : AdminState) (e : Bool) :
    (get_list s e).2.docs =
      (let base :=
        if strTruthy s.sort_column then
          (s.objects.order_by ((if s.sort_desc then "-" else "")
            ++ (s.sort_column.getD ""))).docs
        else s.objects.docs
       match s.page with
       | some p => (base.drop (p * s.list_per_page)).take s.list_per_page
       | none => base.take s.list_per_page) := by
  cases e <;> cases hp : s.page <;> by_cases hc : strTruthy s.sort_column <;>
    simp [get_list, hp, hc, QuerySet.skip, QuerySet.limit, QuerySet.all,
      QuerySet.count]

/-- Witness for C3: a concrete three-document collection reports count 3
whatever the page settings. -/
theorem get_list_count_spec_witness :
    (get_list
      { objects := ⟨[[("i", 0)], [("i", 1)], [("i", 2)]]⟩,
        list_display := [], sort_column := none, sort_desc := false,
        page := none, list_per_page := 2 } true).1 = 3 := by
  rw [get_list_count_spec.1]
  rfl

/-- Witness for C2 (amended): page index 1 with page size 2 over five rows
returns rows 2 and 3. -/
theorem get_list_pagination_witness :
    (get_list
      { objects := ⟨[[("i", 0)], [("i", 1)], [("i", 2)], [("i", 3)],
                     [("i", 4)]]⟩,
        list_display := [], sort_column := none, sort_desc := false,
        page := some 1, list_per_page := 2 } true).2.docs
      = [[("i", 2)], [("i", 3)]] := by
  rw [get_list_pagination
    { objects := ⟨[[("i", 0)], [("i", 1)], [("i", 2)], [("i", 3)],
                   [("i", 4)]]⟩,
      list_display := [], sort_column := none, sort_desc := false,
      page := some 1, list_per_page := 2 } true]
  rfl

/-- C2 counterexample: a three-document collection listed with page index
None and page size 2 comes back truncated to 2 documents, not as the full
matching set. -/
theorem get_list_no_page_counterexample :
    (get_list
      { objects := ⟨[[("i", 0)], [("i", 1)], [("i", 2)]]⟩,
        list_display := [], sort_column := none, sort_desc := false,
        page := none, list_per_page := 2 } true).2.docs
    ≠ [[("i", 0)], [("i", 1)], [("i", 2)]] := by
  decide

/-- C5: delete_models returns True whatever mix of present and absent pks
it is given, and the final store is the original store minus exactly the
documents whose id was targeted; absent pks are skipped without effect. -/
theorem delete_models_spec (store : List MDoc) (pks : List Nat) :
    (delete_models store pks).1 = true
    ∧ (delete_models store pks).2
        = store.filter (fun d => !(pks.contains d.id)) := by
  refine ⟨rfl, ?_⟩
  show (get_objects store pks).foldl deleteDoc store = _
  rw [foldl_deleteDoc]
  apply List.filter_congr
  intro x hx
  rw [any_get_objects store pks x hx]

/-- Witness for C5: deleting the absent pk 5 together with the present pk 2
returns True and leaves only the document with id 1. -/
theorem delete_models_spec_witness :
    (delete_models [⟨1, 10⟩, ⟨2, 20⟩] [5, 2]).1 = true
    ∧ (delete_models [⟨1, 10⟩, ⟨2, 20⟩] [5, 2]).2 = [⟨1, 10⟩] := by
  have h := delete_models_spec [⟨1, 10⟩, ⟨2, 20⟩] [5, 2]
  refine ⟨h.1, ?_⟩
  rw [h.2]
  rfl

/-- C6 counterexample: model_detect raises a TypeError when handed a value
that is not a class, so it is not total over every candidate value. -/
theorem model_detect_nonclass_counterexample :
    model_detect (.nonClass "the integer 42")
      = .error "TypeError: issubclass() arg 1 must be a class" := by
  rfl

/-- C6 (amended): for every candidate that is a class, model_detect is a
pure total function: it returns normally, and yields true exactly when
mongoengine.Document occurs in the candidate class hierarchy; on a
non-class candidate it raises TypeError instead of returning. -/
theorem model_detect_class_spec (name : String) (mro : List String) :
    model_detect (.cls name mro) = .ok (mro.contains "mongoengine.Document") := by
  rfl

/-- Witness for C6 (amended): a document subclass is detected, returning
normally. -/
theorem model_detect_class_spec_witness :
    model_detect (.cls "Page" ["Page", "mongoengine.Document", "object"])
      = .ok true := by
  rw [model_detect_class_spec]
  rfl

end Mongo

namespace Orm

/-- C4: a native field with a non-empty choice set always converts to a
selection-kind descriptor, whatever its type name: the choices branch of
convert precedes both the simple-conversion table and the conv handlers. -/
theorem convert_choices_select (model : DjangoModel) (fld : DjangoField)
    (fa : Option FieldArgs) (h : fld.choices ≠ []) :
    ∃ d, adminConvert model fld fa = some d ∧ d.kind = .selectField := by
  simp only [adminConvert]
  rw [if_pos h]
  exact ⟨_, rfl, rfl⟩

/-- Witness for C4: an integer-typed field carrying choices converts to a
select descriptor. -/
theorem convert_choices_select_witness :
    ∃ d, adminConvert fixtureModel
        { name := "status", ftype := "IntegerField", verbose_name := "status",
          help_text := "", blank := false, max_length := none,
          default := .pyNone, choices := [(.pyInt 1, "one")], rel_to := none }
        none = some d ∧ d.kind = .selectField :=
  convert_choices_select fixtureModel
    { name := "status", ftype := "IntegerField", verbose_name := "status",
      help_text := "", blank := false, max_length := none,
      default := .pyNone, choices := [(.pyInt 1, "one")], rel_to := none }
    none (by decide)

/-- C9: the tri-state boolean coercion maps the six sentinel inputs to
True, True, False, False, None, None, maps the string 1 to True, and maps
every other value on which int() succeeds to bool(int(value)). -/
theorem coerce_nullbool_spec :
    coerce_nullbool (.pyStr "True") = .ok (some true)
    ∧ coerce_nullbool (.pyBool true) = .ok (some true)
    ∧ coerce_nullbool (.pyStr "False") = .ok (some false)
    ∧ coerce_nullbool (.pyBool false) = .ok (some false)
    ∧ coerce_nullbool (.pyStr "None") = .ok none
    ∧ coerce_nullbool .pyNone = .ok none
    ∧ coerce_nullbool (.pyStr "1") = .ok (some true)
    ∧ (∀ (v : PyVal) (n : Int),
        v ≠ .pyStr "None" → v ≠ .pyNone → v ≠ .pyStr "True" →
        v ≠ .pyStr "False" → pyToInt v = some n →
        coerce_nullbool v = .ok (some (decide (n ≠ 0)))) := by
  refine ⟨rfl, rfl, rfl, rfl, rfl, rfl, rfl, ?_⟩
  intro v n h1 h2 h3 h4 hn
  unfold coerce_nullbool
  rw [if_neg (by rintro (h | h) <;> [exact h1 h; exact h2 h])]
  rw [if_neg h3, if_neg h4, hn]

/-- Without a validators override, the kwargs validator list contains the
optional validator exactly when the field is blank: the list starts empty,
optional is appended for a blank field, and only a length validator can
follow. -/
theorem buildKwargs_optional_mem (fld : DjangoField) (fa : Option FieldArgs)
    (hfa : noValidatorOverride fa) :
    (Validator.optional ∈ (buildKwargs fld fa).validators) ↔ fld.blank = true := by
  cases fa with
  | none =>
      cases hb : fld.blank <;> cases hm : fld.max_length <;>
        simp [buildKwargs, hb, hm] <;> split <;> simp
  | some a =>
      have hv : a.validators = none := hfa
      cases hb : fld.blank <;> cases hm : fld.max_length <;>
        simp [buildKwargs, hb, hm, hv] <;> split <;> simp

/-- Every descriptor convert produces keeps the kwargs validator list,
appending at most one format validator; none of the branches adds or
removes an optional validator. -/
theorem convert_optional_mem (model : DjangoModel) (fld : DjangoField)
    (fa : Option FieldArgs) (d : FormFieldDescriptor)
    (hconv : adminConvert model fld fa = some d) :
    (Validator.optional ∈ d.validators
      ↔ Validator.optional ∈ (buildKwargs fld fa).validators) := by
  simp only [adminConvert, convHandler] at hconv
  split at hconv
  · rw [Option.some.injEq] at hconv
    subst hconv
    simp [simpleDescriptor]
  · split at hconv
    · rw [Option.some.injEq] at hconv
      subst hconv
      simp [simpleDescriptor]
    · repeat' split at hconv
      all_goals
        first
          | (rw [Option.some.injEq] at hconv; subst hconv;
             simp [simpleDescriptor])
          | exact Option.noConfusion hconv

/-- C8: when the caller supplies no validators override, the descriptor
produced by convert carries the optional validator exactly when the native
field is blank (permits absence). -/
theorem convert_optional_iff_blank (model : DjangoModel) (fld : DjangoField)
    (fa : Option FieldArgs) (d : FormFieldDescriptor)
    (hfa : noValidatorOverride fa)
    (hconv : adminConvert model fld fa = some d) :
    (Validator.optional ∈ d.validators) ↔ fld.blank = true := by
  rw [convert_optional_mem model fld fa d hconv]
  exact buildKwargs_optional_mem fld fa hfa

/-- Witness for C8: the blank fixture char field converts to a descriptor
carrying the optional validator. -/
theorem convert_optional_iff_blank_witness :
    ∃ d, adminConvert fixtureModel nameField none = some d
      ∧ Validator.optional ∈ d.validators := by
  cases hc : adminConvert fixtureModel nameField none with
  | none => exact absurd hc (by decide)
  | some d =>
      exact ⟨d, rfl,
        (convert_optional_iff_blank fixtureModel nameField none d
          (by simp [noValidatorOverride]) hc).mpr rfl⟩

/-- Witness for C9: the numeric string 2 coerces through int() to True. -/
theorem coerce_nullbool_spec_witness :
    coerce_nullbool (.pyStr "2") = .ok (some true) := by
  have h := coerce_nullbool_spec.2.2.2.2.2.2.2 (.pyStr "2") 2
    (by decide) (by decide) (by decide) (by decide) (by decide)
  rw [h]
  rfl

/-- model_fields with a non-empty include list reduces to the
include-filtered conversion, whatever the exclude list says. -/
theorem model_fields_include_eq (model : DjangoModel) (inc : List String)
    (ro excl : Option (List String)) (fa : String → Option FieldArgs)
    (conv : Converter) (hinc : inc ≠ []) :
    model_fields model (some inc) ro excl fa conv
      = (model.fields.filter (fun f => inc.contains f.name)).filterMap
          (fun f => (conv model f (fa f.name)).map (fun d => (f.name, d))) := by
  have ht : listTruthy (some inc) = true := by
    cases inc with
    | nil => exact absurd rfl hinc
    | cons a as => rfl
  simp [model_fields, ht]

/-- model_fields with no include list and a non-empty exclude list reduces
to the exclude-filtered conversion. -/
theorem model_fields_exclude_eq (model : DjangoModel)
    (ro : Option (List String)) (e : List String)
    (fa : String → Option FieldArgs) (conv : Converter) (he : e ≠ []) :
    model_fields model none ro (some e) fa conv
      = (model.fields.filter (fun f => !(e.contains f.name))).filterMap
          (fun f => (conv model f (fa f.name)).map (fun d => (f.name, d))) := by
  have ht : listTruthy (some e) = true := by
    cases e with
    | nil => exact absurd rfl he
    | cons a as => rfl
  simp [model_fields, listTruthy, ht]
  rw [if_neg he]

/-- When every kept field converts, the names of the produced mapping are
the kept names in declaration order. -/
theorem filterMap_names_of_all_some
    (conv1 : DjangoField → Option FormFieldDescriptor)
    (l : List DjangoField) (p : String → Bool)
    (h : ∀ f ∈ l, p f.name = true → (conv1 f).isSome = true) :
    ((l.filter (fun f => p f.name)).filterMap
        (fun f => (conv1 f).map (fun d => (f.name, d)))).map Prod.fst
      = (l.map DjangoField.name).filter p := by
  induction l with
  | nil => rfl
  | cons f fs ih =>
      have hf := h f (List.mem_cons_self f fs)
      have hrest : ∀ g ∈ fs, p g.name = true → (conv1 g).isSome = true :=
        fun g hg => h g (List.mem_cons_of_mem f hg)
      cases hp : p f.name with
      | false => simpa [List.filter_cons, hp] using ih hrest
      | true =>
          obtain ⟨d, hd⟩ := Option.isSome_iff_exists.mp (hf hp)
          simp [List.filter_cons, hp, hd, ih hrest]

/-- A field that survives the selection filter and converts contributes its
name to the produced mapping. -/
theorem name_mem_filterMap (conv1 : DjangoField → Option FormFieldDescriptor)
    (l : List DjangoField) (p : DjangoField → Bool) (f : DjangoField)
    (hf : f ∈ l) (hp : p f = true) (hs : (conv1 f).isSome = true) :
    f.name ∈ ((l.filter p).filterMap
        (fun g => (conv1 g).map (fun d => (g.name, d)))).map Prod.fst := by
  obtain ⟨d, hd⟩ := Option.isSome_iff_exists.mp hs
  refine List.mem_map.mpr ⟨(f.name, d), ?_, rfl⟩
  refine List.mem_filterMap.mpr ⟨f, List.mem_filter.mpr ⟨hf, hp⟩, ?_⟩
  rw [hd]
  rfl

/-- A name listed in a truthy exclude list never appears in the
model_fields mapping built without an include list. -/
theorem not_mem_of_excluded (model : DjangoModel) (ro : Option (List String))
    (e : List String) (fa : String → Option FieldArgs) (conv : Converter)
    (n : String) (hne : e.contains n = true) :
    ¬ n ∈ fieldNames (model_fields model none ro (some e) fa conv) := by
  have he : e ≠ [] := by
    intro h
    rw [h] at hne
    exact Bool.noConfusion hne
  rw [model_fields_exclude_eq model ro e fa conv he]
  intro hmem
  simp only [fieldNames] at hmem
  obtain ⟨⟨m, d⟩, hpair, hfst⟩ := List.mem_map.mp hmem
  obtain ⟨f, hfl, hsome⟩ := List.mem_filterMap.mp hpair
  obtain ⟨hfm, hpred⟩ := List.mem_filter.mp hfl
  obtain ⟨d2, hc, hpd⟩ := Option.map_eq_some'.mp hsome
  have hmn : m = n := hfst
  have hname : f.name = n := by
    have h2 := congrArg Prod.fst hpd
    simp only [] at h2
    exact h2.trans hmn
  rw [hname, hne] at hpred
  exact Bool.noConfusion hpred

/-- C1 and C10 both rest on this: without an include list, model_form drops
the literal name id from the mapping. -/
theorem id_not_mem_model_form (model : DjangoModel)
    (ro excl : Option (List String)) (fa : String → Option FieldArgs)
    (conv : Converter) :
    ¬ "id" ∈ fieldNames (model_form model none ro excl fa conv).field_dict := by
  have hc : ((excl.getD []) ++ ["id"]).contains "id" = true := by simp
  exact not_mem_of_excluded model ro ((excl.getD []) ++ ["id"]) fa conv "id" hc

/-- C7: a non-empty include list makes model_fields ignore the exclude
list entirely, and when every included field converts, the returned names
are exactly the include names in the model declaration order — never in
the include list order. -/
theorem model_fields_include_spec (model : DjangoModel) (inc : List String)
    (ro excl : Option (List String)) (fa : String → Option FieldArgs)
    (conv : Converter) (hinc : inc ≠ [])
    (hconv : ∀ f ∈ model.fields, inc.contains f.name = true →
      (conv model f (fa f.name)).isSome = true) :
    model_fields model (some inc) ro excl fa conv
        = model_fields model (some inc) ro none fa conv
    ∧ fieldNames (model_fields model (some inc) ro excl fa conv)
        = (model.fields.map DjangoField.name).filter (fun n => inc.contains n) := by
  constructor
  · rw [model_fields_include_eq model inc ro excl fa conv hinc,
        model_fields_include_eq model inc ro none fa conv hinc]
  · rw [model_fields_include_eq model inc ro excl fa conv hinc]
    exact filterMap_names_of_all_some (fun f => conv model f (fa f.name))
      model.fields (fun n => inc.contains n) hconv

/-- Witness for C7: including name and key (given in that order) while
also excluding key returns key then name — the model order, with the
exclude list ignored. -/
theorem model_fields_include_spec_witness :
    model_fields fixtureModel (some ["name", "key"]) none (some ["key"])
        (fun _ => none) adminConvert
      = model_fields fixtureModel (some ["name", "key"]) none none
        (fun _ => none) adminConvert
    ∧ fieldNames (model_fields fixtureModel (some ["name", "key"]) none
        (some ["key"]) (fun _ => none) adminConvert) = ["key", "name"] := by
  have h := model_fields_include_spec fixtureModel ["name", "key"] none
    (some ["key"]) (fun _ => none) adminConvert (by decide) (by decide)
  refine ⟨h.1, ?_⟩
  rw [h.2]
  rfl

/-- C1 (amended): without an include list, model_form never maps the name
id (the forced exclusion); but a non-empty include list bypasses every
exclusion, so any included convertible field — the primary key included —
appears in the mapping whatever the exclude list; and get_form discards
the allow-pk flag it computes, so the adding flag cannot influence the
produced form either. -/
theorem model_form_pk_exclusion (model : DjangoModel)
    (ro excl : Option (List String)) (fa : String → Option FieldArgs)
    (conv : Converter) :
    (¬ "id" ∈ fieldNames (model_form model none ro excl fa conv).field_dict)
    ∧ (∀ (inc : List String) (f : DjangoField), inc ≠ [] → f ∈ model.fields →
        inc.contains f.name = true → (conv model f (fa f.name)).isSome = true →
        f.name ∈ fieldNames
          (model_form model (some inc) ro excl fa conv).field_dict)
    ∧ (∀ (mform : Option (List String) → Option (List String) → FormType)
        (only exclude : Option (List String)) (adding1 adding2 : Bool),
        Mongo.get_form mform only exclude adding1
          = Mongo.get_form mform only exclude adding2) := by
  refine ⟨id_not_mem_model_form model ro excl fa conv, ?_, ?_⟩
  · intro inc f hinc hf hpf hsome
    show f.name ∈ fieldNames (model_fields model (some inc) ro
      (some ((excl.getD []) ++ ["id"])) fa conv)
    rw [model_fields_include_eq model inc ro _ fa conv hinc]
    exact name_mem_filterMap (fun g => conv model g (fa g.name))
      model.fields (fun g => inc.contains g.name) f hf hpf hsome
  · intro mform only exclude adding1 adding2
    rfl

/-- Witness for C1 (amended): the conventional pk field id appears in the
mapping when the include list names it. -/
theorem model_form_pk_exclusion_witness :
    "id" ∈ fieldNames (model_form idPkModel (some ["id"]) none none
      (fun _ => none) adminConvert).field_dict :=
  (model_form_pk_exclusion idPkModel none none (fun _ => none)
    adminConvert).2.1 ["id"] autoIdField (by decide) (by decide)
    (by decide) (by decide)

/-- C1 counterexample: the mongoengine adapter never opts into primary-key
entry (allow_pk is false), yet naming the conventional pk field id in the
include list produces a field mapping that contains id. -/
theorem model_form_include_pk_counterexample :
    Mongo.allow_pk = false
    ∧ "id" ∈ fieldNames (model_form idPkModel (some ["id"]) none none
        (fun _ => none) adminConvert).field_dict := by
  exact ⟨rfl, by decide⟩

/-- C10: model_form force-excludes the literal name id, not the declared
primary-key name: with no include list, a convertible primary key declared
under another name and not excluded by the caller appears in the mapping,
while any field named id is dropped even when it is not the primary key. -/
theorem model_form_literal_id (model : DjangoModel)
    (ro excl : Option (List String)) (fa : String → Option FieldArgs)
    (conv : Converter) (f : DjangoField) (hf : f ∈ model.fields)
    (hpk : f.name = model.pk_name) (hne : model.pk_name ≠ "id")
    (hconv : (conv model f (fa f.name)).isSome = true)
    (hnex : (excl.getD []).contains f.name = false) :
    model.pk_name ∈ fieldNames (model_form model none ro excl fa conv).field_dict
    ∧ ¬ "id" ∈ fieldNames (model_form model none ro excl fa conv).field_dict := by
  refine ⟨?_, id_not_mem_model_form model ro excl fa conv⟩
  rw [← hpk]
  show f.name ∈ fieldNames (model_fields model none ro
    (some ((excl.getD []) ++ ["id"])) fa conv)
  rw [model_fields_exclude_eq model ro _ fa conv (by simp)]
  refine name_mem_filterMap (fun g => conv model g (fa g.name))
    model.fields (fun g => !(((excl.getD []) ++ ["id"]).contains g.name))
    f hf ?_ hconv
  have h01 : ¬ f.name ∈ excl.getD [] := by
    intro hm
    have h2 : (excl.getD []).contains f.name = true := List.elem_iff.mpr hm
    rw [h2] at hnex
    exact Bool.noConfusion hnex
  simp
  exact ⟨h01, fun h => hne (hpk.symm.trans h)⟩

/-- Witness for C10: on the fixture model the pk field key appears in the
mapping and the non-key field named id does not. -/
theorem model_form_literal_id_witness :
    "key" ∈ fieldNames (model_form fixtureModel none none none
        (fun _ => none) adminConvert).field_dict
    ∧ ¬ "id" ∈ fieldNames (model_form fixtureModel none none none
        (fun _ => none) adminConvert).field_dict :=
  model_form_literal_id fixtureModel none none (fun _ => none) adminConvert
    keyField (by decide) (by decide) (by decide) (by decide) (by decide)

end Orm
